import Mathlib

/-!
Verification development for the MDMA civic-complaint system.

The repository ships a React frontend (ComplaintPage / TicketLog / HomePage /
MapView / AnalysePage and a fetch-based API service) talking to a backend
complaint-ingestion pipeline described by the design document (dedup store,
detection adapter, ticket aggregation engine, ticket store).  The frontend
JavaScript is embedded shallowly below: JS truthiness on the fields the code
actually inspects is modelled explicitly (a missing field is `none`, an empty
string and the number 0 are falsy).  The backend pipeline, which is not part
of the shipped sources, is modelled from the design document where needed.
-/

namespace MDMS

/-! ## JavaScript value helpers

The frontend repeatedly branches on JS truthiness of strings (empty string is
falsy), numbers (0 is falsy) and missing fields (`undefined`/`null` are
falsy).  Optional string fields are `Option String`, optional numeric
coordinate fields are `Option ℚ`. -/

/-- Truthiness of an optional JS string: present and non-empty. -/
def jsTruthyStr : Option String → Bool
  | none => false
  | some s => s != ""

/-- Truthiness of an optional JS number: present and non-zero
(`0` is falsy in JS; `undefined`/`null` are falsy). -/
def jsTruthyNum : Option ℚ → Bool
  | none => false
  | some x => decide (x ≠ 0)

/-- JS `a || b` on optional numbers: returns `a` when truthy, else `b`. -/
def jsOrNum (a b : Option ℚ) : Option ℚ :=
  if jsTruthyNum a then a else b

/-- JS `a || b` on optional strings: returns `a` when truthy, else `b`
(where `b` is an already-present string, as in `x.id || defaultId`). -/
def jsOrStr (a : Option String) (b : String) : String :=
  match a with
  | none => b
  | some s => if s = "" then b else s

/-! ## API service layer (`services/api.js`)

`apiRequest` and `uploadComplaints` inspect: `response.ok`, the response
body as text, the body parsed as JSON (which may fail), the `detail` field
of the parsed JSON, `response.status` and `response.statusText`.  A parsed
JSON body is abstracted by the two observations the code makes of it:
its `detail` field (absent, or a string) and its `JSON.stringify` image. -/

/-- Observations the API layer makes of a JSON-parsed error body:
the `detail` field (a string when present) and `JSON.stringify` of the
whole object. -/
structure JsonBody where
  detail : Option String
  stringified : String
deriving DecidableEq, Repr

/-- An HTTP response as observed by the fetch wrappers: `ok` flag, numeric
status, `statusText`, the raw body text, and the result of `JSON.parse`
on the body (`none` when parsing throws). -/
structure HttpResponse where
  ok : Bool
  status : Nat
  statusText : String
  bodyText : String
  bodyJson : Option JsonBody
deriving DecidableEq, Repr

/-- Shallow embedding of `apiRequest` from `services/api.js`, specialised to
the error-relevant observations.  On a non-OK response the thrown message is
`errorData.detail || JSON.stringify(errorData)` when the body parses as
JSON, else the raw body text, with final fallback
`HTTP error! status: {status}` when the message is empty.  On an OK response
the parsed body `okPayload` is returned unchanged. -/
def apiRequest (r : HttpResponse) (okPayload : String) : Except String String :=
  if r.ok then
    Except.ok okPayload
  else
    let errorMessage : String :=
      match r.bodyJson with
      | some j =>
        match j.detail with
        | some d => if d = "" then j.stringified else d
        | none => j.stringified
      | none => r.bodyText
    Except.error
      (if errorMessage = "" then "HTTP error! status: " ++ toString r.status
       else errorMessage)

/-- Shallow embedding of the error path of `uploadComplaints`.  On a non-OK
response the code does `response.json().catch(() => ({detail: statusText}))`
and throws `errorData.detail || "Upload failed: " + status`.  On an OK
response the parsed payload is returned. -/
def uploadComplaintsRequest (r : HttpResponse) (okPayload : String) :
    Except String String :=
  if r.ok then
    Except.ok okPayload
  else
    let errorData : Option String :=
      match r.bodyJson with
      | some j => j.detail
      | none => some r.statusText
    Except.error
      (match errorData with
       | some d => if d = "" then "Upload failed: " ++ toString r.status else d
       | none => "Upload failed: " ++ toString r.status)

/-! ## TicketLog listing (`TicketLog` component)

The component flattens every ticket's `sub_tickets` into rows, filters by
distortion type / status / date, sorts by `created_at` descending
(`new Date(b.created_at) - new Date(a.created_at)`, with a missing or empty
`created_at` treated as epoch 0), and paginates with
`slice((page-1)*10, page*10)`.  Date parsing (`new Date`) is abstracted by a
parameter `parse : String → Nat` giving each date string its timestamp. -/

/-- One flattened listing row: a sub-ticket enriched with its parent
ticket's id and coordinates, exactly the fields the component reads. -/
structure SubRow where
  sub_id : Option Nat
  issue_type : Option String
  status : Option String
  created_at : Option String
  latitude : Option ℚ
  longitude : Option ℚ
  ticket_latitude : Option ℚ
  ticket_longitude : Option ℚ
  image_id : Option Nat
deriving DecidableEq, Repr

/-- The filter predicate of `filteredTickets`: distortion match
(`"all"` or equal `issue_type`), status match (`"all"` or equal `status`),
and date match (empty filter, or `created_at` truthy and starting with the
selected date). -/
def rowMatches (selDist selStatus selDate : String) (r : SubRow) : Bool :=
  (selDist == "all" || r.issue_type == some selDist) &&
  (selStatus == "all" || r.status == some selStatus) &&
  (selDate == "" ||
    (match r.created_at with
     | some c => c != "" && c.startsWith selDate
     | none => false))

/-- Sort key of a row: the parsed `created_at` timestamp, with a missing or
empty (falsy) `created_at` mapped to epoch `0`. -/
def sortKey (parse : String → Nat) (r : SubRow) : Nat :=
  match r.created_at with
  | none => 0
  | some s => if s = "" then 0 else parse s

/-- The comparator used by the listing, as a relation: `a` precedes `b` when
`a`'s timestamp is at least `b`'s (newest first). -/
def newestFirst (parse : String → Nat) (a b : SubRow) : Prop :=
  sortKey parse b ≤ sortKey parse a

instance (parse : String → Nat) : DecidableRel (newestFirst parse) :=
  fun a b => Nat.decLe (sortKey parse b) (sortKey parse a)

/-- `filteredTickets` of the component: filter by the three selections, then
sort newest-first (JS `Array.prototype.sort` is stable; insertion sort is the
stable sort realising the comparator). -/
def filteredTickets (parse : String → Nat) (selDist selStatus selDate : String)
    (rows : List SubRow) : List SubRow :=
  (rows.filter (rowMatches selDist selStatus selDate)).insertionSort
    (newestFirst parse)

/-- JS `Array.prototype.slice(s, e)`: the elements at indices `s` to `e-1`. -/
def jsSlice (xs : List SubRow) (s e : Nat) : List SubRow :=
  (xs.drop s).take (e - s)

/-- `paginatedTickets` of the component:
`filteredTickets.slice((page-1)*10, page*10)` with `ITEMS_PER_PAGE = 10`. -/
def paginatedTickets (parse : String → Nat) (selDist selStatus selDate : String)
    (page : Nat) (rows : List SubRow) : List SubRow :=
  jsSlice (filteredTickets parse selDist selStatus selDate rows)
    ((page - 1) * 10) (page * 10)

/-! ## ComplaintPage: batch upload (`handleAnalyze`, `uploadComplaints`)

A client media item (one entry of `images` or `videos` state) carries a
uuid, a preview url, possibly the underlying `File` object, and the
geolocation captured when it was added.  `handleAnalyze` collects `File`
objects (recreating them from `blob:`/`data:` urls when absent),
rejects when there is nothing to upload, and posts the files as
`FormData` entries under the single key `"files"`. -/

/-- A JS `File` object as the upload path observes it: a name and opaque
byte content. -/
structure FileObj where
  name : String
  content : Nat
deriving DecidableEq, Repr

/-- One entry of the `images`/`videos` state of `ComplaintPage`. -/
structure ClientMedia where
  id : String
  url : String
  file : Option FileObj
  lat : Option ℚ
  lng : Option ℚ
deriving DecidableEq, Repr

/-- Collect the `File` for one image item, as in the image loop of
`handleAnalyze`: use `item.file` when present, else re-fetch a `blob:` or
`data:` url into a fresh `File` named `image-{id}.jpg` (fetching modelled
by `fetchBlob`); otherwise the item contributes nothing. -/
def collectImageFile (fetchBlob : String → FileObj) (m : ClientMedia) :
    Option FileObj :=
  match m.file with
  | some f => some f
  | none =>
    if m.url.startsWith "blob:" || m.url.startsWith "data:" then
      some { fetchBlob m.url with name := "image-" ++ m.id ++ ".jpg" }
    else
      none

/-- Collect the `File` for one video item, as in the video loop of
`handleAnalyze` (only `blob:` urls are re-fetched, named
`video-{id}.webm`). -/
def collectVideoFile (fetchBlob : String → FileObj) (m : ClientMedia) :
    Option FileObj :=
  match m.file with
  | some f => some f
  | none =>
    if m.url.startsWith "blob:" then
      some { fetchBlob m.url with name := "video-" ++ m.id ++ ".webm" }
    else
      none

/-- The `filesToUpload` array built by `handleAnalyze`: image files then
video files, in state order. -/
def filesToUpload (fetchBlob : String → FileObj)
    (images videos : List ClientMedia) : List FileObj :=
  images.filterMap (collectImageFile fetchBlob) ++
    videos.filterMap (collectVideoFile fetchBlob)

/-- The `FormData` entries posted by `uploadComplaints`: each file appended
under the key `"files"`, in order.  Nothing else is appended. -/
def uploadFormEntries (files : List FileObj) : List (String × FileObj) :=
  files.map (fun f => ("files", f))

/-- The batch-upload request issued by `handleAnalyze`, or `none` when no
request is sent: the empty-batch guard (`images.length === 0 &&
videos.length === 0`) returns before any work, and an empty
`filesToUpload` throws before `uploadComplaints` is called. -/
def analyzeRequest (fetchBlob : String → FileObj)
    (images videos : List ClientMedia) : Option (List (String × FileObj)) :=
  if images = [] ∧ videos = [] then
    none
  else
    let fs := filesToUpload fetchBlob images videos
    if fs = [] then none else some (uploadFormEntries fs)

/-- The pre-upload outcome of `handleAnalyze`: the alert shown for an empty
batch, the thrown error when no item yields a `File`, or the request. -/
inductive AnalyzeOutcome where
  | emptyBatchRejected (alert : String)
  | noValidFiles (error : String)
  | request (entries : List (String × FileObj))
deriving DecidableEq, Repr

/-- The validation phase of `handleAnalyze` as a total function. -/
def analyzeOutcome (fetchBlob : String → FileObj)
    (images videos : List ClientMedia) : AnalyzeOutcome :=
  if images = [] ∧ videos = [] then
    .emptyBatchRejected "Please add at least one image or video."
  else
    let fs := filesToUpload fetchBlob images videos
    if fs = [] then .noValidFiles "No valid files to upload"
    else .request (uploadFormEntries fs)

/-! ## ComplaintPage: response processing -/

/-- A sub-ticket as returned by the backend in `tickets_created`, with the
fields the frontend reads. -/
structure SubTicketResp where
  sub_id : Nat
  issue_type : Option String
  authority : Option String
  status : Option String
  latitude : Option ℚ
  longitude : Option ℚ
  media_count : Option Nat
  rejected_count : Option Nat
  created_at : Option String
deriving DecidableEq, Repr

/-- A ticket as returned by the backend, with the fields the frontend
reads (`status` is read only by the HomePage statistics). -/
structure TicketResp where
  ticket_id : Nat
  status : Option String
  latitude : Option ℚ
  longitude : Option ℚ
  created_at : Option String
  sub_tickets : List SubTicketResp
deriving DecidableEq, Repr

/-- The batch-upload response body. -/
structure UploadResponse where
  tickets_created : List TicketResp
  duplicates_found : Nat
  message : Option String
  rejected : List String
deriving DecidableEq, Repr

/-- One row of the `uploadedFiles` array assembled for the AnalysePage. -/
structure UploadedRow where
  id : String
  previewUrl : Option String
  type : String
  ticket_id : Nat
  sub_id : Nat
  issue_type : Option String
  authority : Option String
  status : Option String
  latitude : Option ℚ
  longitude : Option ℚ
  media_count : Option Nat
  rejected_count : Option Nat
deriving DecidableEq, Repr

/-- Build one `uploadedFiles` row from a sub-ticket, its parent ticket, the
running `mediaIndex`, and the combined `[...images, ...videos]` array:
`type` is `'video'` iff `issue_type === 'video'`, the display coordinates
are `subTicket || ticket || originalMedia` under JS truthiness, and the id
falls back to `media-{index}`. -/
def mkUploadedRow (media : List ClientMedia) (idx : Nat) (tk : TicketResp)
    (st : SubTicketResp) : UploadedRow :=
  let orig := media[idx]?
  { id := jsOrStr (orig.map (fun o => o.id)) ("media-" ++ toString idx)
    previewUrl := orig.map (fun o => o.url)
    type := if st.issue_type = some "video" then "video" else "image"
    ticket_id := tk.ticket_id
    sub_id := st.sub_id
    issue_type := st.issue_type
    authority := st.authority
    status := st.status
    latitude := jsOrNum st.latitude (jsOrNum tk.latitude
      (match orig with | some o => o.lat | none => none))
    longitude := jsOrNum st.longitude (jsOrNum tk.longitude
      (match orig with | some o => o.lng | none => none))
    media_count := st.media_count
    rejected_count := st.rejected_count }

/-- The `uploadedFiles` array: for every ticket and every one of its
sub-tickets in order, a row built at `mediaIndex = uploadedFiles.length`. -/
def buildUploadedRows (media : List ClientMedia) (tickets : List TicketResp) :
    List UploadedRow :=
  tickets.foldl
    (fun acc tk =>
      tk.sub_tickets.foldl (fun acc2 st => acc2 ++ [mkUploadedRow media acc2.length tk st]) acc)
    []

/-- What `handleAnalyze` does with a successful upload response: the
duplicate notice shown when `duplicates_found > 0` (message falling back to
a default), and the unconditional navigation to `/analyse` carrying the
assembled rows and the raw response. -/
def processUploadResponse (images videos : List ClientMedia)
    (resp : UploadResponse) :
    List String × String × List UploadedRow × UploadResponse :=
  let notices :=
    if 0 < resp.duplicates_found then
      [jsOrStr resp.message
        ("Some images were already registered. Duplicates: " ++
          toString resp.duplicates_found)]
    else []
  (notices, "/analyse",
    buildUploadedRows (images ++ videos) resp.tickets_created, resp)

/-! ## HomePage statistics (`fetchTickets` in `HomePage.jsx`)

The counts are computed from a `status` field read on the **Ticket**
objects of the listing response. -/

/-- The dashboard statistics: total, resolved (`resolved` or `closed`),
working (`in_progress` or `working`), and `open = total - resolved -
working`, each computed from `t.status` on the ticket objects. -/
def homeStats (tickets : List TicketResp) : Nat × Nat × Nat × Nat :=
  let total := tickets.length
  let resolved := (tickets.filter
    (fun t => t.status == some "resolved" || t.status == some "closed")).length
  let working := (tickets.filter
    (fun t => t.status == some "in_progress" || t.status == some "working")).length
  (total, resolved, working, total - resolved - working)

/-! ## MapView markers (`MapView.jsx`)

`fetchTickets` flattens sub-tickets, computes each one's coordinates as
`subTicket || ticket` under JS truthiness, and keeps only rows with both
coordinates truthy; the render loop re-checks the same condition. -/

/-- A flattened map row: the sub-ticket plus parent id and the effective
coordinates stored by `fetchTickets`. -/
structure MapRow where
  sub : SubTicketResp
  ticket_id : Nat
  latitude : Option ℚ
  longitude : Option ℚ
deriving DecidableEq, Repr

/-- The rows `fetchTickets` pushes into `allTickets`: one per sub-ticket
whose effective latitude and longitude (`sub || ticket`) are both truthy. -/
def mapRowsOf (tickets : List TicketResp) : List MapRow :=
  tickets.flatMap (fun tk =>
    tk.sub_tickets.filterMap (fun st =>
      let lat := jsOrNum st.latitude tk.latitude
      let lng := jsOrNum st.longitude tk.longitude
      if jsTruthyNum lat && jsTruthyNum lng then
        some { sub := st, ticket_id := tk.ticket_id,
               latitude := lat, longitude := lng }
      else none))

/-- The render-time guard: a marker is emitted unless
`!ticket.latitude || !ticket.longitude`. -/
def markerShown (row : MapRow) : Bool :=
  jsTruthyNum row.latitude && jsTruthyNum row.longitude

/-- The markers actually rendered on the map. -/
def mapMarkers (tickets : List TicketResp) : List MapRow :=
  (mapRowsOf tickets).filter markerShown

/-! ## TicketLog location cell -/

/-- The location cell of a listing row: a maps link when both effective
coordinates are truthy, else the text `Location not available`. -/
inductive LocationCell where
  | link (lat lng : ℚ)
  | notAvailable
deriving DecidableEq, Repr

/-- The location cell rendered for a row: effective coordinates are
`row || parent ticket` under JS truthiness (`lat && lng ? link : text`). -/
def ticketLogLocation (r : SubRow) : LocationCell :=
  match jsOrNum r.latitude r.ticket_latitude,
        jsOrNum r.longitude r.ticket_longitude with
  | some a, some b =>
    if a ≠ 0 ∧ b ≠ 0 then .link a b else .notAvailable
  | some _, none => .notAvailable
  | none, _ => .notAvailable

/-! ## Backend ingestion pipeline

The backend pipeline (Ingestion Gateway, Dedup Store, Detection Adapter,
Ticket Aggregation Engine, Ticket Store) is not part of the shipped
sources; it is modelled from the design document. -/

/-- Modelled from the spec: a SubTicket of the Ticket Store — id, issue
type, authority, lifecycle status, media/rejected counters, and the ids of
the canonical media items that accreted to it. -/
structure SubTicketM where
  sub_id : Nat
  issue_type : String
  authority : String
  status : String
  media_count : Nat
  rejected_count : Nat
  media_ids : List Nat
deriving DecidableEq, Repr

/-- Modelled from the spec: a Ticket — id, representative location, and its
sub-tickets in creation order. -/
structure TicketM where
  ticket_id : Nat
  loc : Option (ℚ × ℚ)
  sub_tickets : List SubTicketM
deriving DecidableEq, Repr

/-- Modelled from the spec: the persistent state the pipeline touches — the
fingerprint index (content hash → canonical media-item id), the canonical
media items, the tickets, the running duplicate count of the batch, and an
id counter. -/
structure PipelineState where
  fingerprints : List (Nat × Nat)
  mediaItems : List Nat
  tickets : List TicketM
  duplicates_found : Nat
  nextId : Nat
deriving DecidableEq, Repr

/-- The empty pipeline state. -/
def initState : PipelineState :=
  { fingerprints := [], mediaItems := [], tickets := [],
    duplicates_found := 0, nextId := 0 }

/-- Modelled from the spec: one uploaded file — its byte content (abstracted
to a number; the fingerprint is an exact content hash, so byte-identical
files share it) and its optional attached geolocation. -/
structure BatchFile where
  bytes : Nat
  loc : Option (ℚ × ℚ)
deriving DecidableEq, Repr

/-- Modelled from the spec: the exact content hash of the Dedup Store,
injective on byte contents. -/
def fingerprint (bytes : Nat) : Nat := bytes

/-- A sub-ticket still accretes media only while not resolved/closed. -/
def subActive (st : SubTicketM) : Bool :=
  st.status == "open" || st.status == "in_progress"

/-- Modelled from the spec: look up an open Ticket whose bucket matches the
detection's location (`sameBucket` is the configurable spatial/temporal
clustering predicate).  Detections without a known location are never
merged with others. -/
def findBucketTicket (sameBucket : (ℚ × ℚ) → (ℚ × ℚ) → Bool)
    (loc : Option (ℚ × ℚ)) (tickets : List TicketM) : Option TicketM :=
  match loc with
  | none => none
  | some l =>
    tickets.find? (fun t =>
      match t.loc with
      | some l2 => sameBucket l2 l && t.sub_tickets.any subActive
      | none => false)

/-- Modelled from the spec: a fresh SubTicket for a first detection, with
authority assigned from the static mapping and `"unassigned"` when the
issue type is unmapped. -/
def mkSubTicket (authorityOf : String → Option String) (sid : Nat)
    (issue : String) (mid : Nat) : SubTicketM :=
  { sub_id := sid, issue_type := issue,
    authority := (authorityOf issue).getD "unassigned",
    status := "open", media_count := 1, rejected_count := 0,
    media_ids := [mid] }

/-- Increment the media count of the active sub-ticket of the given issue
type, recording the new media id. -/
def incMediaCount (issue : String) (mid : Nat) (subs : List SubTicketM) :
    List SubTicketM :=
  subs.map (fun st =>
    if st.issue_type == issue && subActive st then
      { st with media_count := st.media_count + 1,
                media_ids := st.media_ids ++ [mid] }
    else st)

/-- Modelled from the spec: the merge-or-create decision of the Ticket
Aggregation Engine for one accepted detection — (1) look up a matching
open ticket; (2) found with a sub-ticket of this issue type: attach as
additional media; (3) found without one: new SubTicket under it; (4) no
match: new Ticket with one new SubTicket. -/
def attachDetection (authorityOf : String → Option String)
    (sameBucket : (ℚ × ℚ) → (ℚ × ℚ) → Bool) (mid : Nat)
    (loc : Option (ℚ × ℚ)) (s : PipelineState) (issue : String) :
    PipelineState :=
  match findBucketTicket sameBucket loc s.tickets with
  | some t =>
    if t.sub_tickets.any (fun st => st.issue_type == issue && subActive st) then
      { s with tickets := s.tickets.map (fun t2 =>
          if t2.ticket_id == t.ticket_id then
            { t2 with sub_tickets := incMediaCount issue mid t2.sub_tickets }
          else t2) }
    else
      { s with
        tickets := s.tickets.map (fun t2 =>
          if t2.ticket_id == t.ticket_id then
            { t2 with sub_tickets :=
                t2.sub_tickets ++ [mkSubTicket authorityOf s.nextId issue mid] }
          else t2),
        nextId := s.nextId + 1 }
  | none =>
    { s with
      tickets := s.tickets ++
        [{ ticket_id := s.nextId, loc := loc,
           sub_tickets := [mkSubTicket authorityOf (s.nextId + 1) issue mid] }],
      nextId := s.nextId + 2 }

/-- Increment the rejected count of every sub-ticket associated with the
canonical media item (the route a duplicate takes). -/
def incRejected (canonical : Nat) (tickets : List TicketM) : List TicketM :=
  tickets.map (fun t =>
    { t with sub_tickets := t.sub_tickets.map (fun st =>
        if canonical ∈ st.media_ids then
          { st with rejected_count := st.rejected_count + 1 }
        else st) })

/-- Modelled from the spec: processing of one file by the pipeline.  The
Dedup Store's atomic `registerIfAbsent` makes the concurrent executions of
a batch linearizable, so the batch is processed as a sequence: a hash
already registered is a duplicate (increment the matching sub-ticket's
rejected count and the batch duplicate counter — no new ticket state, no
detection call); a novel hash registers a canonical media item, runs
detection (`detect`, already collapsed to distinct issue types per media
item), and feeds each detection to the aggregation engine. -/
def processFile (detect : Nat → List String)
    (authorityOf : String → Option String)
    (sameBucket : (ℚ × ℚ) → (ℚ × ℚ) → Bool)
    (s : PipelineState) (f : BatchFile) : PipelineState :=
  match s.fingerprints.lookup (fingerprint f.bytes) with
  | some canonical =>
    { s with duplicates_found := s.duplicates_found + 1,
             tickets := incRejected canonical s.tickets }
  | none =>
    let mid := s.nextId
    let s1 : PipelineState :=
      { s with fingerprints := (fingerprint f.bytes, mid) :: s.fingerprints,
               mediaItems := s.mediaItems ++ [mid],
               nextId := s.nextId + 1 }
    ((detect f.bytes).dedup).foldl
      (attachDetection authorityOf sameBucket mid f.loc) s1

/-- Modelled from the spec: `submitBatch` of the Ingestion Gateway — an
empty batch is rejected with `InvalidInput` before any side effect;
otherwise the files are processed in submission order. -/
def submitBatch (detect : Nat → List String)
    (authorityOf : String → Option String)
    (sameBucket : (ℚ × ℚ) → (ℚ × ℚ) → Bool)
    (files : List BatchFile) : Except String PipelineState :=
  if files = [] then Except.error "InvalidInput"
  else Except.ok (files.foldl (processFile detect authorityOf sameBucket) initState)

/-! ## Backend Ticket Store: status transitions -/

/-- Modelled from the spec: the forward-only status chain
open → in_progress → resolved → closed. -/
def nextStatus : String → Option String
  | "open" => some "in_progress"
  | "in_progress" => some "resolved"
  | "resolved" => some "closed"
  | _ => none

/-- A status transition is valid exactly when it is the next step of the
forward-only chain. -/
def validTransition (cur new : String) : Bool :=
  nextStatus cur == some new

/-- Modelled from the spec: `updateStatus(sub_id, newStatus)` of the Ticket
Store — `NotFound` for an unknown id, `InvalidStatusTransition` for any
transition off the forward-only chain, otherwise the store with that
sub-ticket's status replaced. -/
def updateStatus (store : List SubTicketM) (sid : Nat) (new : String) :
    Except String (List SubTicketM) :=
  match store.find? (fun st => st.sub_id == sid) with
  | none => Except.error "NotFound"
  | some st =>
    if validTransition st.status new then
      Except.ok (store.map (fun x =>
        if x.sub_id == sid then { x with status := new } else x))
    else
      Except.error "InvalidStatusTransition"

/-- The store a client observes after an update attempt: unchanged when the
update failed. -/
def storeAfterUpdate (store : List SubTicketM) (sid : Nat) (new : String) :
    List SubTicketM :=
  match updateStatus store sid new with
  | Except.ok store2 => store2
  | Except.error _ => store

/-! ## Theorems -/

/-- C5: for every batch submission with zero media files, `handleAnalyze`
rejects the submission with the invalid-input alert and issues no upload
request to the backend, so no side effects occur; the gateway likewise
rejects an empty batch with `InvalidInput` before any side effect. -/
theorem c5_empty_batch_rejected :
    ∀ (fetchBlob : String → FileObj) (detect : Nat → List String)
      (authorityOf : String → Option String)
      (sameBucket : (ℚ × ℚ) → (ℚ × ℚ) → Bool),
      analyzeOutcome fetchBlob [] [] =
        AnalyzeOutcome.emptyBatchRejected
          "Please add at least one image or video." ∧
      analyzeRequest fetchBlob [] [] = none ∧
      submitBatch detect authorityOf sameBucket [] =
        Except.error "InvalidInput" := by
  intro fetchBlob detect authorityOf sameBucket
  exact ⟨rfl, rfl, rfl⟩

/-- C8: when the listing's Ticket objects carry no top-level `status`
field, the dashboard statistics report resolved = 0, in-progress = 0 and
open = total number of tickets, whatever the statuses of the tickets'
sub-tickets, because the counts read `status` on the Ticket objects
themselves. -/
theorem c8_home_stats_ticket_status (tickets : List TicketResp)
    (h : ∀ t ∈ tickets, t.status = none) :
    homeStats tickets = (tickets.length, 0, 0, tickets.length) := by
  unfold homeStats
  have h1 : tickets.filter
      (fun t => t.status == some "resolved" || t.status == some "closed") = [] := by
    rw [List.filter_eq_nil_iff]
    intro t ht
    simp [h t ht]
  have h2 : tickets.filter
      (fun t => t.status == some "in_progress" || t.status == some "working") = [] := by
    rw [List.filter_eq_nil_iff]
    intro t ht
    simp [h t ht]
  rw [h1, h2]
  simp

/-- C8 witness: a concrete listing of two tickets without a top-level
status, one of whose sub-tickets is resolved, still counts as 2 open. -/
theorem c8_home_stats_witness :
    homeStats
      [⟨1, none, none, none, none,
        [⟨10, some "garbage", none, some "resolved", none, none,
          some 1, some 0, none⟩]⟩,
       ⟨2, none, none, none, none, []⟩] = (2, 0, 0, 2) :=
  c8_home_stats_ticket_status _ (by decide)

/-- C9: a row of the upload-results view is typed `video` exactly when the
sub-ticket's `issue_type` string equals `"video"`; in particular every
sub-ticket whose issue type is one of the defect enum values (pathholes,
garbage, streetdebris) is rendered as an image. -/
theorem c9_row_type_video_iff (media : List ClientMedia) (idx : Nat)
    (tk : TicketResp) (st : SubTicketResp) :
    ((mkUploadedRow media idx tk st).type = "video" ↔
      st.issue_type = some "video") ∧
    ((st.issue_type = some "pathholes" ∨ st.issue_type = some "garbage" ∨
        st.issue_type = some "streetdebris") →
      (mkUploadedRow media idx tk st).type = "image") := by
  unfold mkUploadedRow
  constructor
  · by_cases h : st.issue_type = some "video" <;> simp [h]
  · rintro (h | h | h) <;> simp [h]

/-- C9 witness: a concrete sub-ticket with issue type `pathholes` renders
as an image even though its media item was a video. -/
theorem c9_row_type_witness :
    ((mkUploadedRow [⟨"m0", "blob:v", none, none, none⟩] 0
        ⟨1, none, none, none, none, []⟩
        ⟨5, some "pathholes", none, some "open", none, none,
          some 1, some 0, none⟩).type = "video" ↔
      (some "pathholes" : Option String) = some "video") ∧
    (((some "pathholes" : Option String) = some "pathholes" ∨
        (some "pathholes" : Option String) = some "garbage" ∨
        (some "pathholes" : Option String) = some "streetdebris") →
      (mkUploadedRow [⟨"m0", "blob:v", none, none, none⟩] 0
        ⟨1, none, none, none, none, []⟩
        ⟨5, some "pathholes", none, some "open", none, none,
          some 1, some 0, none⟩).type = "image") :=
  c9_row_type_video_iff _ _ _ _

/-- C7: for every request whose HTTP response is not OK, both fetch
wrappers fail with exactly one top-level error — the server `detail` when
present and non-empty, falling back to the stringified/raw body or the
HTTP status — and return no (partial) result data. -/
theorem c7_http_error_single (r : HttpResponse) (payload : String)
    (h : r.ok = false) :
    (∃ m, apiRequest r payload = Except.error m) ∧
    (∀ j d, r.bodyJson = some j → j.detail = some d → d ≠ "" →
      apiRequest r payload = Except.error d) ∧
    (∀ j, r.bodyJson = some j → (j.detail = none ∨ j.detail = some "") →
      j.stringified ≠ "" →
      apiRequest r payload = Except.error j.stringified) ∧
    (r.bodyJson = none → r.bodyText ≠ "" →
      apiRequest r payload = Except.error r.bodyText) ∧
    (r.bodyJson = none → r.bodyText = "" →
      apiRequest r payload =
        Except.error ("HTTP error! status: " ++ toString r.status)) ∧
    (∀ j d, r.bodyJson = some j → j.detail = some d → d ≠ "" →
      uploadComplaintsRequest r payload = Except.error d) ∧
    (r.bodyJson = none → r.statusText ≠ "" →
      uploadComplaintsRequest r payload = Except.error r.statusText) ∧
    (∀ x, apiRequest r payload ≠ Except.ok x ∧
      uploadComplaintsRequest r payload ≠ Except.ok x) := by
  refine ⟨?_, ?_, ?_, ?_, ?_, ?_, ?_, ?_⟩
  · unfold apiRequest
    rw [h, if_neg Bool.false_ne_true]
    exact ⟨_, rfl⟩
  · intro j d hj hd hne
    unfold apiRequest
    rw [h, if_neg Bool.false_ne_true, hj]
    simp [hd, hne]
  · intro j hj hd hne
    unfold apiRequest
    rw [h, if_neg Bool.false_ne_true, hj]
    rcases hd with hd | hd <;> simp [hd, hne]
  · intro hj hne
    unfold apiRequest
    rw [h, if_neg Bool.false_ne_true, hj]
    simp [hne]
  · intro hj he
    unfold apiRequest
    rw [h, if_neg Bool.false_ne_true, hj, he]
    simp
  · intro j d hj hd hne
    unfold uploadComplaintsRequest
    rw [h, if_neg Bool.false_ne_true, hj]
    simp [hd, hne]
  · intro hj hne
    unfold uploadComplaintsRequest
    rw [h, if_neg Bool.false_ne_true, hj]
    simp [hne]
  · intro x
    unfold apiRequest uploadComplaintsRequest
    rw [h, if_neg Bool.false_ne_true, if_neg Bool.false_ne_true]
    constructor <;> simp

/-- C7 witness: a concrete 422 response with a JSON `detail` makes both
wrappers fail with exactly that detail and no result. -/
theorem c7_http_error_witness :
    (∃ m, apiRequest ⟨false, 422, "Unprocessable", "body", some ⟨some "boom", "st"⟩⟩ "p" =
      Except.error m) ∧
    apiRequest ⟨false, 422, "Unprocessable", "body", some ⟨some "boom", "st"⟩⟩ "p" =
      Except.error "boom" ∧
    uploadComplaintsRequest ⟨false, 422, "Unprocessable", "body", some ⟨some "boom", "st"⟩⟩ "p" =
      Except.error "boom" := by
  have h := c7_http_error_single
    ⟨false, 422, "Unprocessable", "body", some ⟨some "boom", "st"⟩⟩ "p" rfl
  exact ⟨h.1, h.2.1 _ _ rfl rfl (by decide), h.2.2.2.2.2.1 _ _ rfl rfl (by decide)⟩

/-- C6: a successful upload response with `duplicates_found > 0` surfaces a
duplicate notice, and the flow still navigates to the results page with the
batch's processed rows — the rows and target do not depend on the
duplicate count, so duplicates never abort the flow. -/
theorem c6_duplicates_nonblocking (images videos : List ClientMedia)
    (resp : UploadResponse) (h : 0 < resp.duplicates_found) :
    (processUploadResponse images videos resp).1 =
      [jsOrStr resp.message
        ("Some images were already registered. Duplicates: " ++
          toString resp.duplicates_found)] ∧
    (processUploadResponse images videos resp).2.1 = "/analyse" ∧
    (processUploadResponse images videos resp).2.2.1 =
      buildUploadedRows (images ++ videos) resp.tickets_created ∧
    (∀ d : Nat, (processUploadResponse images videos
        { resp with duplicates_found := d }).2.2.1 =
      (processUploadResponse images videos resp).2.2.1 ∧
      (processUploadResponse images videos
        { resp with duplicates_found := d }).2.1 =
      (processUploadResponse images videos resp).2.1) := by
  unfold processUploadResponse
  refine ⟨?_, rfl, rfl, fun d => ⟨rfl, rfl⟩⟩
  simp [h]

/-- C6 witness: a concrete response with one duplicate and one created
ticket surfaces the notice and still navigates with the row built from the
ticket. -/
theorem c6_duplicates_witness :
    (processUploadResponse [⟨"m0", "u0", none, none, none⟩] []
      ⟨[⟨1, none, none, none, none,
          [⟨5, some "garbage", some "Sanitation", some "open", none, none,
            some 1, some 1, none⟩]⟩], 1, none, []⟩).1 =
      [jsOrStr none
        ("Some images were already registered. Duplicates: " ++ toString 1)] ∧
    (processUploadResponse [⟨"m0", "u0", none, none, none⟩] []
      ⟨[⟨1, none, none, none, none,
          [⟨5, some "garbage", some "Sanitation", some "open", none, none,
            some 1, some 1, none⟩]⟩], 1, none, []⟩).2.1 = "/analyse" ∧
    (processUploadResponse [⟨"m0", "u0", none, none, none⟩] []
      ⟨[⟨1, none, none, none, none,
          [⟨5, some "garbage", some "Sanitation", some "open", none, none,
            some 1, some 1, none⟩]⟩], 1, none, []⟩).2.2.1 =
      buildUploadedRows ([⟨"m0", "u0", none, none, none⟩] ++ [])
        [⟨1, none, none, none, none,
          [⟨5, some "garbage", some "Sanitation", some "open", none, none,
            some 1, some 1, none⟩]⟩] := by
  have h := c6_duplicates_nonblocking [⟨"m0", "u0", none, none, none⟩] []
    ⟨[⟨1, none, none, none, none,
        [⟨5, some "garbage", some "Sanitation", some "open", none, none,
          some 1, some 1, none⟩]⟩], 1, none, []⟩ (by decide)
  exact ⟨h.1, h.2.1, h.2.2.1⟩

/-- Evaluation of the MapView flattening on a ticket with one sub-ticket:
a single row when both effective coordinates are truthy, nothing
otherwise. -/
theorem mapRowsOf_singleton (tk : TicketResp) (st : SubTicketResp) :
    mapRowsOf [{ tk with sub_tickets := [st] }] =
      (if jsTruthyNum (jsOrNum st.latitude tk.latitude) &&
          jsTruthyNum (jsOrNum st.longitude tk.longitude) then
        [{ sub := st, ticket_id := tk.ticket_id,
           latitude := jsOrNum st.latitude tk.latitude,
           longitude := jsOrNum st.longitude tk.longitude }]
      else []) := by
  cases hx : jsTruthyNum (jsOrNum st.latitude tk.latitude) <;>
    cases hy : jsTruthyNum (jsOrNum st.longitude tk.longitude) <;>
      simp [mapRowsOf, List.filterMap_cons, hx, hy]

/-- C10: a sub-ticket is treated as having a location exactly when both its
effective latitude and longitude — its own value, falling back to the
parent ticket's, under JS truthiness — are truthy; an effective coordinate
of 0 is falsy, so such a sub-ticket gets no map marker and the listing
shows the location-not-available text. -/
theorem c10_zero_coordinate_unavailable (tk : TicketResp)
    (st : SubTicketResp) (r : SubRow) :
    (mapMarkers [{ tk with sub_tickets := [st] }] ≠ [] ↔
      jsTruthyNum (jsOrNum st.latitude tk.latitude) = true ∧
      jsTruthyNum (jsOrNum st.longitude tk.longitude) = true) ∧
    ((jsOrNum st.latitude tk.latitude = some 0 ∨
        jsOrNum st.longitude tk.longitude = some 0) →
      mapMarkers [{ tk with sub_tickets := [st] }] = []) ∧
    ((jsOrNum r.latitude r.ticket_latitude = some 0 ∨
        jsOrNum r.longitude r.ticket_longitude = some 0) →
      ticketLogLocation r = LocationCell.notAvailable) ∧
    (jsTruthyNum (jsOrNum r.latitude r.ticket_latitude) = true →
      jsTruthyNum (jsOrNum r.longitude r.ticket_longitude) = true →
      ∃ a b, ticketLogLocation r = LocationCell.link a b ∧
        jsOrNum r.latitude r.ticket_latitude = some a ∧
        jsOrNum r.longitude r.ticket_longitude = some b) := by
  refine ⟨?_, ?_, ?_, ?_⟩
  · unfold mapMarkers
    rw [mapRowsOf_singleton]
    by_cases hlat : jsTruthyNum (jsOrNum st.latitude tk.latitude) = true <;>
      by_cases hlng : jsTruthyNum (jsOrNum st.longitude tk.longitude) = true <;>
      simp [hlat, hlng, markerShown]
  · intro h0
    unfold mapMarkers
    rw [mapRowsOf_singleton]
    have hc : (jsTruthyNum (jsOrNum st.latitude tk.latitude) &&
        jsTruthyNum (jsOrNum st.longitude tk.longitude)) = false := by
      rcases h0 with h0 | h0 <;> rw [h0] <;> simp [jsTruthyNum]
    rw [hc]
    simp
  · intro h0
    unfold ticketLogLocation
    rcases h0 with h0 | h0
    · rw [h0]
      cases hy : jsOrNum r.longitude r.ticket_longitude <;> simp
    · rw [h0]
      cases hx : jsOrNum r.latitude r.ticket_latitude <;> simp
  · intro hlat hlng
    unfold ticketLogLocation
    cases hx : jsOrNum r.latitude r.ticket_latitude with
    | none => rw [hx] at hlat; simp [jsTruthyNum] at hlat
    | some a =>
      cases hy : jsOrNum r.longitude r.ticket_longitude with
      | none => rw [hy] at hlng; simp [jsTruthyNum] at hlng
      | some b =>
        rw [hx] at hlat
        rw [hy] at hlng
        simp [jsTruthyNum] at hlat hlng
        exact ⟨a, b, by simp [hlat, hlng], rfl, rfl⟩

/-- C10 witness: a concrete sub-ticket whose effective latitude is 0 gets
no marker and an unavailable location cell, while one at (16.5, 80.6)
is shown. -/
theorem c10_zero_coordinate_witness :
    mapMarkers [{ (⟨1, none, some 0, some 80, none, []⟩ : TicketResp) with
      sub_tickets :=
        [⟨5, some "garbage", none, some "open", none, none, none, none, none⟩] }] = [] ∧
    ticketLogLocation
      ⟨some 5, some "garbage", some "open", none, none, none, some 0, some 80, none⟩ =
      LocationCell.notAvailable ∧
    (∃ a b, ticketLogLocation
        ⟨some 5, some "garbage", some "open", none, some 16, some 80,
          none, none, none⟩ = LocationCell.link a b ∧
      jsOrNum (some 16) none = some a ∧ jsOrNum (some 80) none = some b) := by
  refine ⟨?_, ?_, ?_⟩
  · exact (c10_zero_coordinate_unavailable ⟨1, none, some 0, some 80, none, []⟩
      ⟨5, some "garbage", none, some "open", none, none, none, none, none⟩
      ⟨none, none, none, none, none, none, none, none, none⟩).2.1
      (Or.inl (by decide))
  · exact (c10_zero_coordinate_unavailable ⟨1, none, some 0, some 80, none, []⟩
      ⟨5, some "garbage", none, some "open", none, none, none, none, none⟩
      ⟨some 5, some "garbage", some "open", none, none, none, some 0, some 80,
        none⟩).2.2.1 (Or.inl (by decide))
  · exact (c10_zero_coordinate_unavailable ⟨1, none, some 0, some 80, none, []⟩
      ⟨5, some "garbage", none, some "open", none, none, none, none, none⟩
      ⟨some 5, some "garbage", some "open", none, some 16, some 80,
        none, none, none⟩).2.2.2 (by decide) (by decide)

/-- C3: a status update of a stored sub-ticket succeeds exactly when the
requested transition is the next step of the forward-only chain
open → in_progress → resolved → closed; any other transition fails with
`InvalidStatusTransition` and leaves the store — hence the sub-ticket's
status — unchanged. -/
theorem c3_status_forward_chain (store : List SubTicketM) (sid : Nat)
    (st : SubTicketM) (new : String)
    (hfind : store.find? (fun x => x.sub_id == sid) = some st) :
    ((∃ store2, updateStatus store sid new = Except.ok store2) ↔
      validTransition st.status new = true) ∧
    (validTransition st.status new = false →
      updateStatus store sid new = Except.error "InvalidStatusTransition" ∧
      storeAfterUpdate store sid new = store) ∧
    (validTransition "open" "in_progress" = true ∧
     validTransition "in_progress" "resolved" = true ∧
     validTransition "resolved" "closed" = true ∧
     validTransition "closed" "open" = false ∧
     validTransition "closed" "in_progress" = false ∧
     validTransition "closed" "resolved" = false ∧
     validTransition "resolved" "open" = false ∧
     validTransition "resolved" "in_progress" = false ∧
     validTransition "in_progress" "open" = false ∧
     validTransition "open" "resolved" = false ∧
     validTransition "open" "closed" = false) := by
  refine ⟨?_, ?_, by decide⟩
  · unfold updateStatus
    simp only [hfind]
    constructor
    · rintro ⟨store2, h2⟩
      by_cases hv : validTransition st.status new = true
      · exact hv
      · rw [if_neg hv] at h2
        cases h2
    · intro hv
      rw [if_pos hv]
      exact ⟨_, rfl⟩
  · intro hv
    unfold storeAfterUpdate updateStatus
    simp only [hfind, hv]
    simp

/-- C3 witness: in a concrete store, closing a resolved sub-ticket
succeeds, while reopening a closed one fails with
`InvalidStatusTransition` and changes nothing. -/
theorem c3_status_forward_chain_witness :
    ((∃ store2, updateStatus
        [⟨1, "pathholes", "Roads", "closed", 1, 0, [0]⟩] 1 "open" =
      Except.ok store2) ↔
      validTransition "closed" "open" = true) ∧
    (updateStatus [⟨1, "pathholes", "Roads", "closed", 1, 0, [0]⟩] 1 "open" =
      Except.error "InvalidStatusTransition" ∧
     storeAfterUpdate [⟨1, "pathholes", "Roads", "closed", 1, 0, [0]⟩] 1 "open" =
      [⟨1, "pathholes", "Roads", "closed", 1, 0, [0]⟩]) ∧
    (∃ store2, updateStatus
        [⟨2, "garbage", "Sanitation", "resolved", 3, 1, [0, 1, 2]⟩] 2 "closed" =
      Except.ok store2) := by
  refine ⟨?_, ?_, ?_⟩
  · exact (c3_status_forward_chain
      [⟨1, "pathholes", "Roads", "closed", 1, 0, [0]⟩] 1
      ⟨1, "pathholes", "Roads", "closed", 1, 0, [0]⟩ "open" (by decide)).1
  · exact (c3_status_forward_chain
      [⟨1, "pathholes", "Roads", "closed", 1, 0, [0]⟩] 1
      ⟨1, "pathholes", "Roads", "closed", 1, 0, [0]⟩ "open" (by decide)).2.1
      (by decide)
  · exact ((c3_status_forward_chain
      [⟨2, "garbage", "Sanitation", "resolved", 3, 1, [0, 1, 2]⟩] 2
      ⟨2, "garbage", "Sanitation", "resolved", 3, 1, [0, 1, 2]⟩ "closed"
      (by decide)).1).mpr (by decide)

/-- Erase the captured per-file geolocation of a client media item,
keeping its id, url and file. -/
def eraseLoc (m : ClientMedia) : ClientMedia :=
  { m with lat := none, lng := none }

/-- C4 counterexample: for a concrete batch of one image with a captured
geolocation, the upload request is byte-for-byte the same as for the same
image with no captured location (or any other location) — the request is
just the `files` entries, so it does not include the file's
latitude/longitude. -/
theorem c4_counterexample :
    (analyzeRequest (fun u => ⟨u, 0⟩)
        [⟨"a", "u", some ⟨"x.png", 5⟩, some 16, some 80⟩] [] =
      analyzeRequest (fun u => ⟨u, 0⟩)
        [⟨"a", "u", some ⟨"x.png", 5⟩, none, none⟩] []) ∧
    (analyzeRequest (fun u => ⟨u, 0⟩)
        [⟨"a", "u", some ⟨"x.png", 5⟩, some 16, some 80⟩] [] =
      analyzeRequest (fun u => ⟨u, 0⟩)
        [⟨"a", "u", some ⟨"x.png", 5⟩, some 99, some 7⟩] []) ∧
    analyzeRequest (fun u => ⟨u, 0⟩)
        [⟨"a", "u", some ⟨"x.png", 5⟩, some 16, some 80⟩] [] =
      some [("files", ⟨"x.png", 5⟩)] := by
  refine ⟨?_, ?_, ?_⟩ <;> decide

/-- C4 (amended): the client stores each file's captured geolocation and
later uses it only as a display fallback; the batch upload request carries
only the file objects under the `files` key — erasing every captured
latitude/longitude leaves the request unchanged, so no per-file
geolocation reaches the backend. -/
theorem c4_upload_carries_no_geolocation (fetchBlob : String → FileObj)
    (images videos : List ClientMedia) :
    (∀ entries, analyzeRequest fetchBlob images videos = some entries →
      entries = (filesToUpload fetchBlob images videos).map
        (fun f => ("files", f)) ∧
      ∀ e ∈ entries, e.1 = "files") ∧
    analyzeRequest fetchBlob (images.map eraseLoc) (videos.map eraseLoc) =
      analyzeRequest fetchBlob images videos ∧
    (∀ (media : List ClientMedia) (idx : Nat) (tk : TicketResp)
        (st : SubTicketResp), st.latitude = none → tk.latitude = none →
      (mkUploadedRow media idx tk st).latitude =
        (match media[idx]? with | some o => o.lat | none => none)) := by
  refine ⟨?_, ?_, ?_⟩
  · intro entries h
    unfold analyzeRequest at h
    split at h
    · cases h
    · dsimp only at h
      split at h
      · cases h
      · rw [Option.some.injEq] at h
        subst h
        exact ⟨rfl, by simp [uploadFormEntries]⟩
  · have hfs : filesToUpload fetchBlob (images.map eraseLoc)
        (videos.map eraseLoc) = filesToUpload fetchBlob images videos := by
      unfold filesToUpload
      rw [List.filterMap_map, List.filterMap_map]
      rfl
    unfold analyzeRequest
    rw [hfs]
    by_cases h0 : images = [] ∧ videos = []
    · rw [if_pos h0, if_pos ⟨by rw [h0.1]; rfl, by rw [h0.2]; rfl⟩]
    · rw [if_neg h0, if_neg (by simpa [List.map_eq_nil_iff] using h0)]
  · intro media idx tk st hst htk
    unfold mkUploadedRow
    rw [hst, htk]
    rfl

/-- C4 amended-claim witness: a concrete one-image batch with a captured
location uploads exactly the `files` entries, the erased-location batch
uploads the same request, and a response row with no backend coordinates
falls back to the stored client latitude. -/
theorem c4_upload_witness :
    (∀ entries, analyzeRequest (fun u => ⟨u, 0⟩)
        [⟨"a", "u", some ⟨"x.png", 5⟩, some 16, some 80⟩] [] = some entries →
      entries = (filesToUpload (fun u => ⟨u, 0⟩)
        [⟨"a", "u", some ⟨"x.png", 5⟩, some 16, some 80⟩] []).map
          (fun f => ("files", f)) ∧
      ∀ e ∈ entries, e.1 = "files") ∧
    analyzeRequest (fun u => ⟨u, 0⟩)
        ([⟨"a", "u", some ⟨"x.png", 5⟩, some 16, some 80⟩].map eraseLoc)
        ([].map eraseLoc) =
      analyzeRequest (fun u => ⟨u, 0⟩)
        [⟨"a", "u", some ⟨"x.png", 5⟩, some 16, some 80⟩] [] ∧
    (∀ (media : List ClientMedia) (idx : Nat) (tk : TicketResp)
        (st : SubTicketResp), st.latitude = none → tk.latitude = none →
      (mkUploadedRow media idx tk st).latitude =
        (match media[idx]? with | some o => o.lat | none => none)) :=
  c4_upload_carries_no_geolocation (fun u => ⟨u, 0⟩)
    [⟨"a", "u", some ⟨"x.png", 5⟩, some 16, some 80⟩] []

/-- C2: for every fetched collection of sub-ticket rows and every selected
status filter (together with the issue-type and created-date filters), the
listing's filtered sequence contains exactly the rows matching all the
filters — in particular only rows whose status equals the selected one —
sorted newest-first by `created_at`; and the displayed page `p` is exactly
the window of rows at positions `(p-1)*10` through `p*10 - 1` of that
filtered, sorted sequence, hence at most 10 rows. -/
theorem c2_listing_filter_sort_page (parse : String → Nat)
    (selDist selStatus selDate : String) (page : Nat) (rows : List SubRow)
    (hs : selStatus ≠ "all") (hp : 1 ≤ page) :
    (∀ r, r ∈ filteredTickets parse selDist selStatus selDate rows ↔
      r ∈ rows ∧ rowMatches selDist selStatus selDate r = true) ∧
    (∀ r ∈ filteredTickets parse selDist selStatus selDate rows,
      r.status = some selStatus) ∧
    List.Sorted (newestFirst parse)
      (filteredTickets parse selDist selStatus selDate rows) ∧
    (paginatedTickets parse selDist selStatus selDate page rows).length =
      min 10 ((filteredTickets parse selDist selStatus selDate rows).length
        - (page - 1) * 10) ∧
    (paginatedTickets parse selDist selStatus selDate page rows).length ≤ 10 ∧
    (∀ i : Nat,
      (paginatedTickets parse selDist selStatus selDate page rows)[i]? =
        if i < 10 then
          (filteredTickets parse selDist selStatus selDate
            rows)[(page - 1) * 10 + i]?
        else none) := by
  refine ⟨?_, ?_, ?_, ?_, ?_, ?_⟩
  · intro r
    unfold filteredTickets
    rw [List.mem_insertionSort, List.mem_filter]
  · intro r hr
    have hm : rowMatches selDist selStatus selDate r = true := by
      unfold filteredTickets at hr
      rw [List.mem_insertionSort, List.mem_filter] at hr
      exact hr.2
    unfold rowMatches at hm
    simp only [Bool.and_eq_true, Bool.or_eq_true, beq_iff_eq] at hm
    rcases hm with ⟨⟨_, h2⟩, _⟩
    rcases h2 with h2 | h2
    · exact absurd h2 hs
    · exact h2
  · unfold filteredTickets
    haveI ht : IsTotal SubRow (newestFirst parse) :=
      ⟨fun a b => Nat.le_total (sortKey parse b) (sortKey parse a)⟩
    haveI htr : IsTrans SubRow (newestFirst parse) :=
      ⟨fun _ _ _ hab hbc => le_trans hbc hab⟩
    exact List.sorted_insertionSort _ _
  · unfold paginatedTickets jsSlice
    rw [List.length_take, List.length_drop]
    have h10 : page * 10 - (page - 1) * 10 = 10 := by omega
    rw [h10]
  · unfold paginatedTickets jsSlice
    rw [List.length_take]
    have h10 : page * 10 - (page - 1) * 10 = 10 := by omega
    rw [h10]
    exact Nat.min_le_left _ _
  · intro i
    unfold paginatedTickets jsSlice
    have h10 : page * 10 - (page - 1) * 10 = 10 := by omega
    rw [h10]
    by_cases hi : i < 10
    · rw [if_pos hi, List.getElem?_take_of_lt hi, List.getElem?_drop]
    · rw [if_neg hi, List.getElem?_take_eq_none (by omega)]

/-- C2 witness: a concrete four-row collection filtered to `resolved` on
page 1 lists exactly the two resolved rows, newest first, in one page. -/
theorem c2_listing_witness :
    (∀ r, r ∈ filteredTickets String.length "all" "resolved" ""
        [⟨some 1, some "garbage", some "resolved", some "2024-01-02", none,
          none, none, none, none⟩,
         ⟨some 2, some "pathholes", some "open", some "2024-01-03", none,
          none, none, none, none⟩,
         ⟨some 3, some "garbage", some "resolved", some "2024-01-04T09", none,
          none, none, none, none⟩,
         ⟨some 4, some "streetdebris", some "closed", none, none,
          none, none, none, none⟩] ↔
      r ∈ [⟨some 1, some "garbage", some "resolved", some "2024-01-02", none,
          none, none, none, none⟩,
         ⟨some 2, some "pathholes", some "open", some "2024-01-03", none,
          none, none, none, none⟩,
         ⟨some 3, some "garbage", some "resolved", some "2024-01-04T09", none,
          none, none, none, none⟩,
         ⟨some 4, some "streetdebris", some "closed", none, none,
          none, none, none, none⟩] ∧
        rowMatches "all" "resolved" "" r = true) ∧
    (∀ r ∈ filteredTickets String.length "all" "resolved" ""
        [⟨some 1, some "garbage", some "resolved", some "2024-01-02", none,
          none, none, none, none⟩,
         ⟨some 2, some "pathholes", some "open", some "2024-01-03", none,
          none, none, none, none⟩,
         ⟨some 3, some "garbage", some "resolved", some "2024-01-04T09", none,
          none, none, none, none⟩,
         ⟨some 4, some "streetdebris", some "closed", none, none,
          none, none, none, none⟩],
      r.status = some "resolved") ∧
    List.Sorted (newestFirst String.length)
      (filteredTickets String.length "all" "resolved" ""
        [⟨some 1, some "garbage", some "resolved", some "2024-01-02", none,
          none, none, none, none⟩,
         ⟨some 2, some "pathholes", some "open", some "2024-01-03", none,
          none, none, none, none⟩,
         ⟨some 3, some "garbage", some "resolved", some "2024-01-04T09", none,
          none, none, none, none⟩,
         ⟨some 4, some "streetdebris", some "closed", none, none,
          none, none, none, none⟩]) ∧
    (paginatedTickets String.length "all" "resolved" "" 1
        [⟨some 1, some "garbage", some "resolved", some "2024-01-02", none,
          none, none, none, none⟩,
         ⟨some 2, some "pathholes", some "open", some "2024-01-03", none,
          none, none, none, none⟩,
         ⟨some 3, some "garbage", some "resolved", some "2024-01-04T09", none,
          none, none, none, none⟩,
         ⟨some 4, some "streetdebris", some "closed", none, none,
          none, none, none, none⟩]).length =
      min 10 ((filteredTickets String.length "all" "resolved" ""
        [⟨some 1, some "garbage", some "resolved", some "2024-01-02", none,
          none, none, none, none⟩,
         ⟨some 2, some "pathholes", some "open", some "2024-01-03", none,
          none, none, none, none⟩,
         ⟨some 3, some "garbage", some "resolved", some "2024-01-04T09", none,
          none, none, none, none⟩,
         ⟨some 4, some "streetdebris", some "closed", none, none,
          none, none, none, none⟩]).length - (1 - 1) * 10) ∧
    (paginatedTickets String.length "all" "resolved" "" 1
        [⟨some 1, some "garbage", some "resolved", some "2024-01-02", none,
          none, none, none, none⟩,
         ⟨some 2, some "pathholes", some "open", some "2024-01-03", none,
          none, none, none, none⟩,
         ⟨some 3, some "garbage", some "resolved", some "2024-01-04T09", none,
          none, none, none, none⟩,
         ⟨some 4, some "streetdebris", some "closed", none, none,
          none, none, none, none⟩]).length ≤ 10 ∧
    (∀ i : Nat,
      (paginatedTickets String.length "all" "resolved" "" 1
        [⟨some 1, some "garbage", some "resolved", some "2024-01-02", none,
          none, none, none, none⟩,
         ⟨some 2, some "pathholes", some "open", some "2024-01-03", none,
          none, none, none, none⟩,
         ⟨some 3, some "garbage", some "resolved", some "2024-01-04T09", none,
          none, none, none, none⟩,
         ⟨some 4, some "streetdebris", some "closed", none, none,
          none, none, none, none⟩])[i]? =
        if i < 10 then
          (filteredTickets String.length "all" "resolved" ""
            [⟨some 1, some "garbage", some "resolved", some "2024-01-02", none,
              none, none, none, none⟩,
             ⟨some 2, some "pathholes", some "open", some "2024-01-03", none,
              none, none, none, none⟩,
             ⟨some 3, some "garbage", some "resolved", some "2024-01-04T09",
              none, none, none, none, none⟩,
             ⟨some 4, some "streetdebris", some "closed", none, none,
              none, none, none, none⟩])[(1 - 1) * 10 + i]?
        else none) :=
  c2_listing_filter_sort_page String.length "all" "resolved" "" 1
    [⟨some 1, some "garbage", some "resolved", some "2024-01-02", none,
      none, none, none, none⟩,
     ⟨some 2, some "pathholes", some "open", some "2024-01-03", none,
      none, none, none, none⟩,
     ⟨some 3, some "garbage", some "resolved", some "2024-01-04T09", none,
      none, none, none, none⟩,
     ⟨some 4, some "streetdebris", some "closed", none, none,
      none, none, none, none⟩] (by decide) (by decide)

/-- The pipeline state reached by one novel file of content `b` at location
`loc`, detected as the single issue `i`, followed by `k` byte-identical
duplicates: one fingerprint, one canonical media item, one ticket with one
sub-ticket whose rejected count and the batch duplicate counter are `k`. -/
def stateAfterDuplicates (authorityOf : String → Option String) (b : Nat)
    (i : String) (loc : Option (ℚ × ℚ)) (k : Nat) : PipelineState :=
  ⟨[(b, 0)], [0],
    [⟨1, loc, [⟨2, i, (authorityOf i).getD "unassigned", "open", 1, k, [0]⟩]⟩],
    k, 3⟩

/-- No bucket ever matches in an empty ticket store. -/
theorem findBucketTicket_nil (sameBucket : (ℚ × ℚ) → (ℚ × ℚ) → Bool)
    (loc : Option (ℚ × ℚ)) : findBucketTicket sameBucket loc [] = none := by
  cases loc <;> simp [findBucketTicket]

/-- Processing the first file of the batch: its hash is novel, so it is
registered as the canonical media item, detected, and aggregated into a
fresh ticket with one fresh sub-ticket. -/
theorem processFile_first (detect : Nat → List String)
    (authorityOf : String → Option String)
    (sameBucket : (ℚ × ℚ) → (ℚ × ℚ) → Bool) (b : Nat) (i : String)
    (f : BatchFile) (hb : f.bytes = b) (hdet : detect b = [i]) :
    processFile detect authorityOf sameBucket initState f =
      stateAfterDuplicates authorityOf b i f.loc 0 := by
  unfold processFile
  rw [hb]
  simp only [initState, fingerprint, List.lookup_nil]
  rw [hdet]
  simp [attachDetection, findBucketTicket_nil, mkSubTicket,
    stateAfterDuplicates, List.dedup_cons_of_not_mem]

/-- Processing any later byte-identical file: its hash resolves to the
canonical media item, so the matching sub-ticket's rejected count and the
duplicate counter increase and nothing else changes. -/
theorem processFile_duplicate (detect : Nat → List String)
    (authorityOf : String → Option String)
    (sameBucket : (ℚ × ℚ) → (ℚ × ℚ) → Bool) (b : Nat) (i : String)
    (loc : Option (ℚ × ℚ)) (k : Nat) (f : BatchFile) (hb : f.bytes = b) :
    processFile detect authorityOf sameBucket
      (stateAfterDuplicates authorityOf b i loc k) f =
      stateAfterDuplicates authorityOf b i loc (k + 1) := by
  unfold processFile
  rw [hb]
  simp [stateAfterDuplicates, fingerprint, List.lookup, incRejected]

/-- Folding any number of byte-identical files over the one-canonical-item
state only counts duplicates. -/
theorem foldl_duplicates (detect : Nat → List String)
    (authorityOf : String → Option String)
    (sameBucket : (ℚ × ℚ) → (ℚ × ℚ) → Bool) (b : Nat) (i : String)
    (loc : Option (ℚ × ℚ)) (fs : List BatchFile)
    (hb : ∀ f ∈ fs, f.bytes = b) (k : Nat) :
    fs.foldl (processFile detect authorityOf sameBucket)
      (stateAfterDuplicates authorityOf b i loc k) =
      stateAfterDuplicates authorityOf b i loc (k + fs.length) := by
  induction fs generalizing k with
  | nil => simp
  | cons f t ih =>
    rw [List.foldl_cons,
      processFile_duplicate detect authorityOf sameBucket b i loc k f
        (hb f (List.mem_cons_self f t)),
      ih (fun g hg => hb g (List.mem_cons_of_mem f hg)) (k + 1)]
    congr 1
    simp
    omega

/-- C1: a batch of `N ≥ 1` byte-identical copies of one media content (in
any order of submission, whatever each copy's attached location), whose
content is classified as a single issue, produces exactly one canonical
media item and exactly one ticket with exactly one sub-ticket, with
`media_count = 1`, `rejected_count = N - 1` and `duplicates_found = N - 1`:
duplicates never create additional ticket state. -/
theorem c1_duplicate_batch (detect : Nat → List String)
    (authorityOf : String → Option String)
    (sameBucket : (ℚ × ℚ) → (ℚ × ℚ) → Bool)
    (b : Nat) (i : String) (N : Nat) (files : List BatchFile)
    (hN : 0 < N) (hlen : files.length = N)
    (hb : ∀ f ∈ files, f.bytes = b) (hdet : detect b = [i]) :
    ∃ S, submitBatch detect authorityOf sameBucket files = Except.ok S ∧
      S.mediaItems.length = 1 ∧
      S.tickets.length = 1 ∧
      (∀ t ∈ S.tickets, t.sub_tickets.length = 1 ∧
        ∀ st ∈ t.sub_tickets, st.media_count = 1 ∧
          st.rejected_count = N - 1 ∧ st.issue_type = i) ∧
      S.duplicates_found = N - 1 := by
  cases files with
  | nil =>
    rw [List.length_nil] at hlen
    omega
  | cons f rest =>
    have hrest : rest.length = N - 1 := by
      rw [List.length_cons] at hlen
      omega
    refine ⟨stateAfterDuplicates authorityOf b i f.loc (0 + rest.length),
      ?_, ?_, ?_, ?_, ?_⟩
    · unfold submitBatch
      rw [if_neg (by simp), List.foldl_cons,
        processFile_first detect authorityOf sameBucket b i f
          (hb f (List.mem_cons_self f rest)) hdet,
        foldl_duplicates detect authorityOf sameBucket b i f.loc rest
          (fun g hg => hb g (List.mem_cons_of_mem f hg)) 0]
    · simp [stateAfterDuplicates]
    · simp [stateAfterDuplicates]
    · intro t ht
      simp only [stateAfterDuplicates, List.mem_singleton] at ht
      subst ht
      refine ⟨rfl, ?_⟩
      intro st hst
      simp only [List.mem_singleton] at hst
      subst hst
      exact ⟨rfl, by simp; omega, rfl⟩
    · simp [stateAfterDuplicates]
      omega

/-- C1 witness: three byte-identical pothole photos in one batch yield one
canonical item and one ticket with one sub-ticket, `media_count = 1`,
`rejected_count = 2`, `duplicates_found = 2`. -/
theorem c1_duplicate_batch_witness :
    ∃ S, submitBatch (fun _ => ["pathholes"]) (fun _ => none)
        (fun _ _ => true) [⟨7, none⟩, ⟨7, none⟩, ⟨7, none⟩] = Except.ok S ∧
      S.mediaItems.length = 1 ∧
      S.tickets.length = 1 ∧
      (∀ t ∈ S.tickets, t.sub_tickets.length = 1 ∧
        ∀ st ∈ t.sub_tickets, st.media_count = 1 ∧
          st.rejected_count = 3 - 1 ∧ st.issue_type = "pathholes") ∧
      S.duplicates_found = 3 - 1 :=
  c1_duplicate_batch (fun _ => ["pathholes"]) (fun _ => none)
    (fun _ _ => true) 7 "pathholes" 3 [⟨7, none⟩, ⟨7, none⟩, ⟨7, none⟩]
    (by decide) (by decide) (by decide) (by decide)

end MDMS
